import Mathlib

/-!
Shallow embedding of the Govigyan-CEP client integration layer.

Source files embedded:
- `src/config/api.ts` : the configuration object (base URL, timeout, endpoint paths).
- `src/services/geminiService.ts` (part_001) : the Transport Client — the shared
  axios connection profile, the generic `fetchData` / `postData` / `uploadFile`
  primitives, and the `geminiApi` bindings.
- `src/hooks/useGeminiApi.ts` (part_000) : the Request Orchestrator — the stateful
  hook wrapping each binding with loading/error tracking.

Modelling conventions:
- A remote service is a function `Remote : Request → Except JsThrown JsData`;
  issuing an HTTP request is applying this function. Each transport operation
  returns, next to its result, the list of requests it actually issued, so that
  "never issues the POST" is a provable statement about the trace.
- Thrown JavaScript values are `JsThrown`: either an `Error` instance (with the
  axios `code` field and a message) or any non-`Error` value. `instanceof Error`
  is a constructor test.
- The axios interceptors in the source only log and raise toasts and pass the
  response or the rejection through unchanged (`return response` /
  `return Promise.reject(error)`), so they are semantically the identity and are
  not modelled separately.
- React state updates (`setIsLoading` / `setError`) are modelled by recording the
  state visible between invocation and settlement (`pending`) and the state after
  settlement (`final`) in an `OpRun` record; both writes are unconditional
  overwrites in the source, so the prior state does not matter.
-/

/-- A thrown JavaScript value: an `Error` instance carrying the optional axios
`code` field and a message, or any non-`Error` value (identified by a tag). -/
inductive JsThrown where
  | error (code : Option String) (msg : String)
  | nonError (tag : String)
deriving DecidableEq, Repr

/-- The axios `error.code` field; reading `.code` on a non-Error value yields
`undefined`, modelled as `none`. -/
def jsErrorCode : JsThrown → Option String
  | .error c _ => c
  | .nonError _ => none

/-- An opaque JSON-like value (request/response payloads). -/
inductive JsData where
  | null
  | str (s : String)
  | arr (xs : List JsData)
  | obj (fields : List (String × JsData))
deriving Repr

/-- A `File` blob with the metadata the source reads (name, size, type). -/
structure JsFile where
  name : String
  size : Nat
  type : String
deriving DecidableEq, Repr

/-- A value appended to a `FormData`: a file or a primitive coerced to string. -/
inductive FormVal where
  | file (f : JsFile)
  | prim (s : String)
deriving DecidableEq, Repr

inductive Method where
  | get
  | post
deriving DecidableEq, Repr

/-- A request body: none (GET), a JSON value, or multipart form entries. -/
inductive ReqBody where
  | empty
  | json (v : JsData)
  | form (entries : List (String × FormVal))
deriving Repr

/-- The per-request axios config actually used by the source: optional query
params, optional Content-Type override, optional timeout override. -/
structure ReqConfig where
  params : Option JsData := none
  contentType : Option String := none
  timeout : Option Nat := none
deriving Repr

/-- One HTTP request as issued through the shared client. -/
structure Request where
  method : Method
  path : String
  cfg : ReqConfig
  body : ReqBody
deriving Repr

/-- The remote service: maps each issued request to a response body or a
rejection value. -/
abbrev Remote := Request → Except JsThrown JsData

/-! ### src/config/api.ts -/

/-- Fallback base URL used when the environment variable is not set. -/
def defaultBaseURL : String := "https://govigyan-gemini.onrender.com"

/-- `config.GEMINI_API_URL = import.meta.env.VITE_API_BASE_URL || "https://..."`;
JavaScript `||` also falls back on the empty string. -/
def GEMINI_API_URL (viteApiBaseUrl : Option String) : String :=
  match viteApiBaseUrl with
  | some s => if s = "" then defaultBaseURL else s
  | none => defaultBaseURL

/-- `config.API_TIMEOUT` (milliseconds). -/
def API_TIMEOUT : Nat := 120000

/-- `config.MAX_FILE_SIZE` (bytes); defined in config but never enforced. -/
def MAX_FILE_SIZE : Nat := 10 * 1024 * 1024

namespace ENDPOINTS

def ANALYZE_IMAGE : String := "/upload-flash"

def GET_ANALYSIS : String := "/results"

def EXTRACT_DATA : String := "/upload-flash"

def CREATE_DATABASE : String := "/create-database"

def INSERT_DATA : String := "/insert-data"

def CSV_DATA : String := "/results"

def UPDATE_CSV_DATA : String := "/update"

end ENDPOINTS

/-! ### JavaScript string containment -/

/-- Whether `pat` occurs at the front of `s` (character lists). -/
def charsMatchFront : List Char → List Char → Bool
  | [], _ => true
  | _ :: _, [] => false
  | p :: ps, c :: cs => p == c && charsMatchFront ps cs

/-- Whether `pat` occurs somewhere in `s` (character lists). -/
def charsContain (s pat : List Char) : Bool :=
  match s with
  | [] => charsMatchFront pat []
  | _ :: cs => charsMatchFront pat s || charsContain cs pat

/-- JavaScript `s.includes(pat)`. -/
def strContains (s pat : String) : Bool :=
  charsContain s.toList pat.toList

/-! ### Transport Client: shared connection profile (part_001 lines 5-12) -/

/-- The defaults `axios.create` is given: base URL, default Content-Type header,
default timeout. -/
structure ClientProfile where
  baseURL : String
  contentType : String
  timeout : Nat
deriving Repr

/-- `apiClient = axios.create({ baseURL, headers, timeout })`. -/
def apiClient (baseURL : String) : ClientProfile :=
  { baseURL := baseURL
    contentType := "application/json"
    timeout := API_TIMEOUT }

/-! ### Transport Client: generic primitives (part_001 lines 44-112) -/

/-- `fetchData` (part_001 lines 44-57): builds a config with `params` only when
provided, issues the GET, returns `response.data` on success, rethrows the same
error on failure. -/
def fetchData (remote : Remote) (endpoint : String) (params : Option JsData) :
    Except JsThrown JsData × List Request :=
  let cfg : ReqConfig :=
    match params with
    | some p => { params := some p }
    | none => {}
  let req : Request := { method := .get, path := endpoint, cfg := cfg, body := .empty }
  match remote req with
  | .ok d => (.ok d, [req])
  | .error e => (.error e, [req])

/-- `postData` (part_001 lines 60-68): issues the POST with a JSON body, returns
`response.data` on success, rethrows the same error on failure. -/
def postData (remote : Remote) (endpoint : String) (data : JsData) :
    Except JsThrown JsData × List Request :=
  let req : Request := { method := .post, path := endpoint, cfg := {}, body := .json data }
  match remote req with
  | .ok d => (.ok d, [req])
  | .error e => (.error e, [req])

/-- The synthesized message when the `/health` probe fails (part_001 line 90). -/
def unreachableMsg : String :=
  "API server is not reachable. Please check the server status."

/-- The message synthesized for `ERR_NETWORK` upload failures (part_001 line 107). -/
def networkFailedMsg (baseURL : String) : String :=
  "Network connection failed. Please check if the API server is running at " ++ baseURL

/-- `uploadFile` (part_001 lines 71-112): builds the multipart form (the file
under field `"file"`, then any additional entries), probes `/health` first — a
probe failure is replaced by a synthesized unreachable `Error` which the outer
catch rethrows (its `code` is `undefined`, not `ERR_NETWORK`) — then issues the
multipart POST with an explicit per-request timeout of `config.API_TIMEOUT`;
an `ERR_NETWORK` failure of the POST is replaced by a synthesized network
`Error` naming the base URL, any other failure is rethrown unchanged. -/
def uploadFile (remote : Remote) (baseURL : String) (endpoint : String) (file : JsFile)
    (additionalData : Option (List (String × FormVal))) :
    Except JsThrown JsData × List Request :=
  let entries : List (String × FormVal) :=
    ("file", .file file) ::
      (match additionalData with
       | some xs => xs
       | none => [])
  let healthReq : Request := { method := .get, path := "/health", cfg := {}, body := .empty }
  match remote healthReq with
  | .error _ =>
      (.error (.error none unreachableMsg), [healthReq])
  | .ok _ =>
      let postReq : Request :=
        { method := .post
          path := endpoint
          cfg := { contentType := some "multipart/form-data", timeout := some API_TIMEOUT }
          body := .form entries }
      match remote postReq with
      | .ok d => (.ok d, [healthReq, postReq])
      | .error e =>
          if jsErrorCode e = some "ERR_NETWORK" then
            (.error (.error none (networkFailedMsg baseURL)), [healthReq, postReq])
          else
            (.error e, [healthReq, postReq])

/-! ### Transport Client: geminiApi bindings (part_001 lines 115-204) -/

namespace geminiApi

/-- `geminiApi.analyzeImage` (part_001 lines 117-118). -/
def analyzeImage (remote : Remote) (baseURL : String) (file : JsFile)
    (options : Option (List (String × FormVal))) :
    Except JsThrown JsData × List Request :=
  uploadFile remote baseURL ENDPOINTS.ANALYZE_IMAGE file options

/-- `geminiApi.getAnalysisResults` (part_001 lines 121-122). -/
def getAnalysisResults (remote : Remote) (analysisId : String) :
    Except JsThrown JsData × List Request :=
  fetchData remote (ENDPOINTS.GET_ANALYSIS ++ "/" ++ analysisId) none

/-- `geminiApi.extractDataFromImage` (part_001 lines 125-126). -/
def extractDataFromImage (remote : Remote) (baseURL : String) (file : JsFile) :
    Except JsThrown JsData × List Request :=
  uploadFile remote baseURL ENDPOINTS.EXTRACT_DATA file none

/-- `geminiApi.processFiles` (part_001 lines 129-145): appends every file under
the field `"file"`, issues one multipart POST to the extract-data endpoint with
no timeout override and no reachability probe, rethrows failures unchanged. -/
def processFiles (remote : Remote) (files : List JsFile) :
    Except JsThrown JsData × List Request :=
  let req : Request :=
    { method := .post
      path := ENDPOINTS.EXTRACT_DATA
      cfg := { contentType := some "multipart/form-data" }
      body := .form (files.map fun f => ("file", FormVal.file f)) }
  match remote req with
  | .ok d => (.ok d, [req])
  | .error e => (.error e, [req])

/-- `geminiApi.createDatabase` (part_001 lines 148-156): POST `{}` to
`/create-database`, rethrow failures unchanged. -/
def createDatabase (remote : Remote) : Except JsThrown JsData × List Request :=
  let req : Request :=
    { method := .post, path := "/create-database", cfg := {}, body := .json (.obj []) }
  match remote req with
  | .ok d => (.ok d, [req])
  | .error e => (.error e, [req])

/-- `geminiApi.insertDataIntoPostgres` (part_001 lines 159-170): POST
`{data, tableName}` to `/insert-data`, rethrow failures unchanged. -/
def insertDataIntoPostgres (remote : Remote) (data : JsData) (tableName : String) :
    Except JsThrown JsData × List Request :=
  let req : Request :=
    { method := .post
      path := "/insert-data"
      cfg := {}
      body := .json (.obj [("data", data), ("tableName", .str tableName)]) }
  match remote req with
  | .ok d => (.ok d, [req])
  | .error e => (.error e, [req])

/-- `geminiApi.getCsvData` (part_001 lines 173-181): GET `/results/{id}` with no
config, rethrow failures unchanged. -/
def getCsvData (remote : Remote) (id : String) :
    Except JsThrown JsData × List Request :=
  let req : Request :=
    { method := .get, path := ENDPOINTS.CSV_DATA ++ "/" ++ id, cfg := {}, body := .empty }
  match remote req with
  | .ok d => (.ok d, [req])
  | .error e => (.error e, [req])

/-- `geminiApi.updateCsvData` (part_001 lines 184-192): POST `{data}` to
`/update/{id}`, rethrow failures unchanged. -/
def updateCsvData (remote : Remote) (id : String) (data : JsData) :
    Except JsThrown JsData × List Request :=
  let req : Request :=
    { method := .post
      path := ENDPOINTS.UPDATE_CSV_DATA ++ "/" ++ id
      cfg := {}
      body := .json (.obj [("data", data)]) }
  match remote req with
  | .ok d => (.ok d, [req])
  | .error e => (.error e, [req])

/-- `geminiApi.getAllCsvData` (part_001 lines 195-203): GET `/results` with no
config, rethrow failures unchanged. -/
def getAllCsvData (remote : Remote) : Except JsThrown JsData × List Request :=
  let req : Request :=
    { method := .get, path := ENDPOINTS.CSV_DATA, cfg := {}, body := .empty }
  match remote req with
  | .ok d => (.ok d, [req])
  | .error e => (.error e, [req])

end geminiApi

/-! ### Request Orchestrator (part_000) -/

/-- The hook state: `isLoading` and the stored `error` (an `Error` or `null`). -/
structure CallState where
  isLoading : Bool
  error : Option JsThrown
deriving Repr

/-- The state set at the start of every operation: `setIsLoading(true);
setError(null)`. -/
def loadingState : CallState :=
  { isLoading := true, error := none }

/-- One orchestrated call: the state visible strictly between invocation and
settlement, the state after settlement, and the value returned or re-raised. -/
structure OpRun where
  pending : CallState
  final : CallState
  outcome : Except JsThrown JsData
deriving Repr

/-- `err instanceof Error ? err : new Error("Unknown error occurred")` — the
normalization every orchestrator operation except `analyzeImage` applies to the
value it stores (part_000 lines 64, 80, 96, 112, 128, 144, 160, 176). -/
def wrapUnknown : JsThrown → JsThrown
  | .error c m => .error c m
  | .nonError _ => .error none "Unknown error occurred"

/-- Fixed message for messages containing `"timeout"` (part_000 line 37). -/
def tookTooLongMsg : String :=
  "The request took too long to process. Please try with a smaller file or try again later."

/-- Fixed message for messages containing `"Network"` (part_000 line 39). -/
def cannotConnectMsg (baseURL : String) : String :=
  "Cannot connect to the API server at " ++ baseURL ++ ". Please check if the server is running."

/-- Fixed message for messages containing `"404"` (part_000 line 41). -/
def endpointNotFoundMsg : String :=
  "API endpoint not found. Please check the API configuration."

/-- Fixed message for messages containing `"500"` (part_000 line 43). -/
def serverErrorMsg : String :=
  "Server error occurred. Please try again later."

/-- The message rewriting computed in `analyzeImage` (part_000 lines 36-44). -/
def rewriteMessage (baseURL m : String) : String :=
  if strContains m "timeout" then tookTooLongMsg
  else if strContains m "Network" then cannotConnectMsg baseURL
  else if strContains m "404" then endpointNotFoundMsg
  else if strContains m "500" then serverErrorMsg
  else m

namespace useGeminiApi

/-- Orchestrator `analyzeImage` (part_000 lines 11-52). On failure it computes
`errorMessage` (the rewrite when `err` is an `Error`, the fixed unknown text
otherwise), but then sets `error = err instanceof Error ? err : new
Error(errorMessage)` — so the rewritten message is used only in the non-`Error`
branch, where it is the fixed unknown text; when `err` is an `Error` the
original error is stored and re-raised unchanged. -/
def analyzeImage (remote : Remote) (baseURL : String) (file : JsFile)
    (options : Option (List (String × FormVal))) : OpRun :=
  match (geminiApi.analyzeImage remote baseURL file options).1 with
  | .ok v =>
      { pending := loadingState
        final := { isLoading := false, error := none }
        outcome := .ok v }
  | .error err =>
      let errorMessage : String :=
        match err with
        | .error _ m => rewriteMessage baseURL m
        | .nonError _ => "Unknown error occurred"
      let error : JsThrown :=
        match err with
        | .error c m => .error c m
        | .nonError _ => .error none errorMessage
      { pending := loadingState
        final := { isLoading := false, error := some error }
        outcome := .error error }

/-- Orchestrator `extractDataFromImage` (part_000 lines 55-68). -/
def extractDataFromImage (remote : Remote) (baseURL : String) (file : JsFile) : OpRun :=
  match (geminiApi.extractDataFromImage remote baseURL file).1 with
  | .ok v =>
      { pending := loadingState
        final := { isLoading := false, error := none }
        outcome := .ok v }
  | .error err =>
      { pending := loadingState
        final := { isLoading := false, error := some (wrapUnknown err) }
        outcome := .error err }

/-- Orchestrator `getAnalysisResults` (part_000 lines 71-84). -/
def getAnalysisResults (remote : Remote) (analysisId : String) : OpRun :=
  match (geminiApi.getAnalysisResults remote analysisId).1 with
  | .ok v =>
      { pending := loadingState
        final := { isLoading := false, error := none }
        outcome := .ok v }
  | .error err =>
      { pending := loadingState
        final := { isLoading := false, error := some (wrapUnknown err) }
        outcome := .error err }

/-- Orchestrator `processFiles` (part_000 lines 87-100). -/
def processFiles (remote : Remote) (files : List JsFile) : OpRun :=
  match (geminiApi.processFiles remote files).1 with
  | .ok v =>
      { pending := loadingState
        final := { isLoading := false, error := none }
        outcome := .ok v }
  | .error err =>
      { pending := loadingState
        final := { isLoading := false, error := some (wrapUnknown err) }
        outcome := .error err }

/-- Orchestrator `createDatabase` (part_000 lines 103-116). -/
def createDatabase (remote : Remote) : OpRun :=
  match (geminiApi.createDatabase remote).1 with
  | .ok v =>
      { pending := loadingState
        final := { isLoading := false, error := none }
        outcome := .ok v }
  | .error err =>
      { pending := loadingState
        final := { isLoading := false, error := some (wrapUnknown err) }
        outcome := .error err }

/-- Orchestrator `insertDataIntoPostgres` (part_000 lines 119-132). -/
def insertDataIntoPostgres (remote : Remote) (data : JsData) (tableName : String) : OpRun :=
  match (geminiApi.insertDataIntoPostgres remote data tableName).1 with
  | .ok v =>
      { pending := loadingState
        final := { isLoading := false, error := none }
        outcome := .ok v }
  | .error err =>
      { pending := loadingState
        final := { isLoading := false, error := some (wrapUnknown err) }
        outcome := .error err }

/-- Orchestrator `getCsvData` (part_000 lines 135-148). -/
def getCsvData (remote : Remote) (id : String) : OpRun :=
  match (geminiApi.getCsvData remote id).1 with
  | .ok v =>
      { pending := loadingState
        final := { isLoading := false, error := none }
        outcome := .ok v }
  | .error err =>
      { pending := loadingState
        final := { isLoading := false, error := some (wrapUnknown err) }
        outcome := .error err }

/-- Orchestrator `updateCsvData` (part_000 lines 151-164). -/
def updateCsvData (remote : Remote) (id : String) (data : JsData) : OpRun :=
  match (geminiApi.updateCsvData remote id data).1 with
  | .ok v =>
      { pending := loadingState
        final := { isLoading := false, error := none }
        outcome := .ok v }
  | .error err =>
      { pending := loadingState
        final := { isLoading := false, error := some (wrapUnknown err) }
        outcome := .error err }

/-- Orchestrator `getAllCsvData` (part_000 lines 167-180). -/
def getAllCsvData (remote : Remote) : OpRun :=
  match (geminiApi.getAllCsvData remote).1 with
  | .ok v =>
      { pending := loadingState
        final := { isLoading := false, error := none }
        outcome := .ok v }
  | .error err =>
      { pending := loadingState
        final := { isLoading := false, error := some (wrapUnknown err) }
        outcome := .error err }

end useGeminiApi

/-! ### Concrete fixtures used by witnesses and counterexamples -/

/-- A concrete file. -/
def fileA : JsFile :=
  { name := "a.png", size := 3, type := "image/png" }

/-- A remote that resolves every request with the same body. -/
def remoteOk : Remote := fun _ => .ok (.str "ok")

/-- A remote that rejects every request with the same `Error`. -/
def remoteErr : Remote := fun _ => .error (.error (some "X") "boom")

/-- A remote that rejects every request with a non-`Error` value. -/
def remoteRaw : Remote := fun _ => .error (.nonError "raw")

/-- A remote whose `/health` probe succeeds and whose other requests fail with
the axios timeout rejection. -/
def remoteTimesOut : Remote := fun req =>
  if req.path = "/health" then .ok .null
  else .error (.error (some "ECONNABORTED") "timeout of 120000ms exceeded")

/-! ### Claim theorems -/

/-- Claim C6: for every endpoint path and every input, `fetchData` and
`postData` return the parsed response body unmodified on success, and any error
thrown during the call propagates to the caller as the identical error value:
each primitive's result is exactly the remote's response to the one request it
issues. -/
theorem fetchData_postData_pass_through (remote : Remote) (endpoint : String)
    (params : Option JsData) (data : JsData) :
    (fetchData remote endpoint params).1 =
      remote { method := .get
               path := endpoint
               cfg := match params with
                      | some p => { params := some p }
                      | none => {}
               body := .empty } ∧
    (postData remote endpoint data).1 =
      remote { method := .post, path := endpoint, cfg := {}, body := .json data } := by
  constructor
  · cases params <;>
      · unfold fetchData
        cases h : remote _ <;> simp [h]
  · unfold postData
    cases h : remote _ <;> simp [h]

/-- Claim C8: `geminiApi.processFiles` issues exactly one multipart POST to the
extract-data endpoint `/upload-flash`, with every file appended under the same
field `"file"`, with no timeout override in its per-request config (and hence
no `/health` reachability probe: the trace holds that single POST only), and
its result is the remote's response to that request. -/
theorem processFiles_single_post_no_probe_no_timeout (remote : Remote) (files : List JsFile) :
    (geminiApi.processFiles remote files).2 =
      [{ method := .post
         path := ENDPOINTS.EXTRACT_DATA
         cfg := { params := none, contentType := some "multipart/form-data", timeout := none }
         body := .form (files.map fun f => ("file", FormVal.file f)) }] ∧
    ENDPOINTS.EXTRACT_DATA = "/upload-flash" ∧
    (geminiApi.processFiles remote files).1 =
      remote { method := .post
               path := ENDPOINTS.EXTRACT_DATA
               cfg := { params := none, contentType := some "multipart/form-data", timeout := none }
               body := .form (files.map fun f => ("file", FormVal.file f)) } := by
  refine ⟨?_, rfl, ?_⟩ <;>
    · unfold geminiApi.processFiles
      dsimp only
      split <;> simp_all

/-- Claim C9: the bindings `geminiApi.getAnalysisResults` and
`geminiApi.getCsvData` are extensionally equivalent: on every remote and id they
produce identical results and traces, and the one request either issues is a GET
to `/results/{id}` with no query parameters. -/
theorem getAnalysisResults_eq_getCsvData (remote : Remote) (id : String) :
    geminiApi.getAnalysisResults remote id = geminiApi.getCsvData remote id ∧
    (geminiApi.getCsvData remote id).2 =
      [{ method := .get
         path := "/results/" ++ id
         cfg := { params := none, contentType := none, timeout := none }
         body := .empty }] := by
  constructor
  · rfl
  · unfold geminiApi.getCsvData
    dsimp only
    split <;> rfl

/-- Claim C2: whenever the pre-flight `/health` probe fails — for any reason,
any rejection value — `uploadFile` rejects with the synthesized unreachable
`Error` and its trace is the probe GET alone, so the multipart POST to the
target endpoint is never issued. -/
theorem uploadFile_probe_failure_rejects_unreachable
    (remote : Remote) (baseURL endpoint : String) (file : JsFile)
    (additionalData : Option (List (String × FormVal))) (e : JsThrown)
    (h : remote { method := .get, path := "/health", cfg := {}, body := .empty } = .error e) :
    uploadFile remote baseURL endpoint file additionalData =
      (.error (.error none unreachableMsg),
       [{ method := .get
          path := "/health"
          cfg := { params := none, contentType := none, timeout := none }
          body := .empty }]) := by
  unfold uploadFile
  dsimp only
  rw [h]

/-- Witness for C2 at a concrete input: a remote that rejects everything with
the axios network error makes the probe fail, and the upload rejects with the
unreachable message having issued only the probe GET. -/
theorem uploadFile_probe_failure_rejects_unreachable_witness :
    uploadFile remoteErr defaultBaseURL ENDPOINTS.ANALYZE_IMAGE fileA none =
      (.error (.error none unreachableMsg),
       [{ method := .get
          path := "/health"
          cfg := { params := none, contentType := none, timeout := none }
          body := .empty }]) :=
  uploadFile_probe_failure_rejects_unreachable remoteErr defaultBaseURL
    ENDPOINTS.ANALYZE_IMAGE fileA none (.error (some "X") "boom") rfl

/-- Claim C7 counterexample: at a concrete input whose probe succeeds, the
multipart POST issued by `uploadFile` carries the per-request timeout
`config.API_TIMEOUT` = 120000 ms, which is not longer than the default
connection profile timeout (itself 120000 ms): the code sets an equal timeout,
not an extended one. -/
theorem uploadFile_timeout_not_extended_cex :
    (uploadFile remoteOk defaultBaseURL ENDPOINTS.ANALYZE_IMAGE fileA none).2 =
      [{ method := .get
         path := "/health"
         cfg := { params := none, contentType := none, timeout := none }
         body := .empty },
       { method := .post
         path := "/upload-flash"
         cfg := { params := none
                  contentType := some "multipart/form-data"
                  timeout := some API_TIMEOUT }
         body := .form [("file", .file fileA)] }] ∧
    ¬ (apiClient defaultBaseURL).timeout < API_TIMEOUT := by
  exact ⟨rfl, by decide⟩

/-- Claim C7 as amended: when the probe succeeds, `uploadFile` issues the
multipart POST with an explicit per-request timeout that equals — rather than
exceeds — the default connection profile timeout of 120000 ms. -/
theorem uploadFile_timeout_equals_profile
    (remote : Remote) (baseURL endpoint : String) (file : JsFile)
    (additionalData : Option (List (String × FormVal))) (d : JsData)
    (h : remote { method := .get, path := "/health", cfg := {}, body := .empty } = .ok d) :
    ((uploadFile remote baseURL endpoint file additionalData).2.map fun r => r.cfg.timeout) =
      [none, some API_TIMEOUT] ∧
    API_TIMEOUT = (apiClient baseURL).timeout ∧
    API_TIMEOUT = 120000 := by
  refine ⟨?_, rfl, rfl⟩
  unfold uploadFile
  dsimp only
  simp only [h]
  split
  · rfl
  · split <;> rfl

/-- Witness for the amended C7 at a concrete input. -/
theorem uploadFile_timeout_equals_profile_witness :
    ((uploadFile remoteOk defaultBaseURL ENDPOINTS.ANALYZE_IMAGE fileA none).2.map
        fun r => r.cfg.timeout) = [none, some API_TIMEOUT] ∧
    API_TIMEOUT = (apiClient defaultBaseURL).timeout ∧
    API_TIMEOUT = 120000 :=
  uploadFile_timeout_equals_profile remoteOk defaultBaseURL ENDPOINTS.ANALYZE_IMAGE
    fileA none (.str "ok") rfl

/-- The settled `OpRun` of a successful orchestrated call: loading cleared,
error cleared, the value returned unchanged. -/
def okRun (v : JsData) : OpRun :=
  { pending := loadingState
    final := { isLoading := false, error := none }
    outcome := .ok v }

/-- Claim C3: for every one of the nine Orchestrator operations and every input,
if the underlying Transport Client binding resolves with a value `v`, the
operation resolves with exactly `v`, the stored error is none, and loading is
false after settlement. -/
theorem orchestrator_success_returns_value_clears_error
    (remote : Remote) (baseURL : String) (file : JsFile)
    (options : Option (List (String × FormVal)))
    (analysisId id tableName : String) (files : List JsFile) (data v : JsData) :
    ((geminiApi.analyzeImage remote baseURL file options).1 = .ok v →
      useGeminiApi.analyzeImage remote baseURL file options = okRun v) ∧
    ((geminiApi.extractDataFromImage remote baseURL file).1 = .ok v →
      useGeminiApi.extractDataFromImage remote baseURL file = okRun v) ∧
    ((geminiApi.getAnalysisResults remote analysisId).1 = .ok v →
      useGeminiApi.getAnalysisResults remote analysisId = okRun v) ∧
    ((geminiApi.processFiles remote files).1 = .ok v →
      useGeminiApi.processFiles remote files = okRun v) ∧
    ((geminiApi.createDatabase remote).1 = .ok v →
      useGeminiApi.createDatabase remote = okRun v) ∧
    ((geminiApi.insertDataIntoPostgres remote data tableName).1 = .ok v →
      useGeminiApi.insertDataIntoPostgres remote data tableName = okRun v) ∧
    ((geminiApi.getCsvData remote id).1 = .ok v →
      useGeminiApi.getCsvData remote id = okRun v) ∧
    ((geminiApi.updateCsvData remote id data).1 = .ok v →
      useGeminiApi.updateCsvData remote id data = okRun v) ∧
    ((geminiApi.getAllCsvData remote).1 = .ok v →
      useGeminiApi.getAllCsvData remote = okRun v) := by
  refine ⟨?_, ?_, ?_, ?_, ?_, ?_, ?_, ?_, ?_⟩ <;> intro h <;>
    simp only [useGeminiApi.analyzeImage, useGeminiApi.extractDataFromImage,
      useGeminiApi.getAnalysisResults, useGeminiApi.processFiles,
      useGeminiApi.createDatabase, useGeminiApi.insertDataIntoPostgres,
      useGeminiApi.getCsvData, useGeminiApi.updateCsvData, useGeminiApi.getAllCsvData,
      h, okRun]

/-- Witness for C3: every operation run against a remote that resolves all
requests with the body `"ok"` settles on exactly that value with error none and
loading false. -/
theorem orchestrator_success_witness :
    useGeminiApi.analyzeImage remoteOk defaultBaseURL fileA none = okRun (.str "ok") ∧
    useGeminiApi.extractDataFromImage remoteOk defaultBaseURL fileA = okRun (.str "ok") ∧
    useGeminiApi.getAnalysisResults remoteOk "1" = okRun (.str "ok") ∧
    useGeminiApi.processFiles remoteOk [fileA] = okRun (.str "ok") ∧
    useGeminiApi.createDatabase remoteOk = okRun (.str "ok") ∧
    useGeminiApi.insertDataIntoPostgres remoteOk .null "t" = okRun (.str "ok") ∧
    useGeminiApi.getCsvData remoteOk "1" = okRun (.str "ok") ∧
    useGeminiApi.updateCsvData remoteOk "1" .null = okRun (.str "ok") ∧
    useGeminiApi.getAllCsvData remoteOk = okRun (.str "ok") := by
  have h := orchestrator_success_returns_value_clears_error remoteOk defaultBaseURL fileA
    none "1" "1" "t" [fileA] JsData.null (JsData.str "ok")
  exact ⟨h.1 rfl, h.2.1 rfl, h.2.2.1 rfl, h.2.2.2.1 rfl, h.2.2.2.2.1 rfl,
    h.2.2.2.2.2.1 rfl, h.2.2.2.2.2.2.1 rfl, h.2.2.2.2.2.2.2.1 rfl,
    h.2.2.2.2.2.2.2.2 rfl⟩

/-- Claim C4: for every one of the nine Orchestrator operations and every input,
if the underlying Transport Client binding fails, the operation stores a
non-none error value and re-raises an error to the caller; it never resolves
successfully on an underlying failure. -/
theorem orchestrator_failure_stores_error_and_reraises
    (remote : Remote) (baseURL : String) (file : JsFile)
    (options : Option (List (String × FormVal)))
    (analysisId id tableName : String) (files : List JsFile) (data : JsData) :
    (∀ e, (geminiApi.analyzeImage remote baseURL file options).1 = .error e →
      (useGeminiApi.analyzeImage remote baseURL file options).final.error ≠ none ∧
      ∃ e2, (useGeminiApi.analyzeImage remote baseURL file options).outcome = .error e2) ∧
    (∀ e, (geminiApi.extractDataFromImage remote baseURL file).1 = .error e →
      (useGeminiApi.extractDataFromImage remote baseURL file).final.error ≠ none ∧
      ∃ e2, (useGeminiApi.extractDataFromImage remote baseURL file).outcome = .error e2) ∧
    (∀ e, (geminiApi.getAnalysisResults remote analysisId).1 = .error e →
      (useGeminiApi.getAnalysisResults remote analysisId).final.error ≠ none ∧
      ∃ e2, (useGeminiApi.getAnalysisResults remote analysisId).outcome = .error e2) ∧
    (∀ e, (geminiApi.processFiles remote files).1 = .error e →
      (useGeminiApi.processFiles remote files).final.error ≠ none ∧
      ∃ e2, (useGeminiApi.processFiles remote files).outcome = .error e2) ∧
    (∀ e, (geminiApi.createDatabase remote).1 = .error e →
      (useGeminiApi.createDatabase remote).final.error ≠ none ∧
      ∃ e2, (useGeminiApi.createDatabase remote).outcome = .error e2) ∧
    (∀ e, (geminiApi.insertDataIntoPostgres remote data tableName).1 = .error e →
      (useGeminiApi.insertDataIntoPostgres remote data tableName).final.error ≠ none ∧
      ∃ e2, (useGeminiApi.insertDataIntoPostgres remote data tableName).outcome = .error e2) ∧
    (∀ e, (geminiApi.getCsvData remote id).1 = .error e →
      (useGeminiApi.getCsvData remote id).final.error ≠ none ∧
      ∃ e2, (useGeminiApi.getCsvData remote id).outcome = .error e2) ∧
    (∀ e, (geminiApi.updateCsvData remote id data).1 = .error e →
      (useGeminiApi.updateCsvData remote id data).final.error ≠ none ∧
      ∃ e2, (useGeminiApi.updateCsvData remote id data).outcome = .error e2) ∧
    (∀ e, (geminiApi.getAllCsvData remote).1 = .error e →
      (useGeminiApi.getAllCsvData remote).final.error ≠ none ∧
      ∃ e2, (useGeminiApi.getAllCsvData remote).outcome = .error e2) := by
  refine ⟨?_, ?_, ?_, ?_, ?_, ?_, ?_, ?_, ?_⟩ <;> intro e h <;>
    simp only [useGeminiApi.analyzeImage, useGeminiApi.extractDataFromImage,
      useGeminiApi.getAnalysisResults, useGeminiApi.processFiles,
      useGeminiApi.createDatabase, useGeminiApi.insertDataIntoPostgres,
      useGeminiApi.getCsvData, useGeminiApi.updateCsvData, useGeminiApi.getAllCsvData,
      h] <;>
    exact ⟨by simp, ⟨_, rfl⟩⟩

/-- Witness for C4: against a remote that rejects everything, every operation
ends with a stored error and a re-raised error. The two upload-based bindings
fail at the probe (the unreachable error), the other seven propagate the
rejection itself. -/
theorem orchestrator_failure_witness :
    ((useGeminiApi.analyzeImage remoteErr defaultBaseURL fileA none).final.error ≠ none ∧
      ∃ e2, (useGeminiApi.analyzeImage remoteErr defaultBaseURL fileA none).outcome = .error e2) ∧
    ((useGeminiApi.extractDataFromImage remoteErr defaultBaseURL fileA).final.error ≠ none ∧
      ∃ e2, (useGeminiApi.extractDataFromImage remoteErr defaultBaseURL fileA).outcome = .error e2) ∧
    ((useGeminiApi.getAnalysisResults remoteErr "1").final.error ≠ none ∧
      ∃ e2, (useGeminiApi.getAnalysisResults remoteErr "1").outcome = .error e2) ∧
    ((useGeminiApi.processFiles remoteErr [fileA]).final.error ≠ none ∧
      ∃ e2, (useGeminiApi.processFiles remoteErr [fileA]).outcome = .error e2) ∧
    ((useGeminiApi.createDatabase remoteErr).final.error ≠ none ∧
      ∃ e2, (useGeminiApi.createDatabase remoteErr).outcome = .error e2) ∧
    ((useGeminiApi.insertDataIntoPostgres remoteErr .null "t").final.error ≠ none ∧
      ∃ e2, (useGeminiApi.insertDataIntoPostgres remoteErr .null "t").outcome = .error e2) ∧
    ((useGeminiApi.getCsvData remoteErr "1").final.error ≠ none ∧
      ∃ e2, (useGeminiApi.getCsvData remoteErr "1").outcome = .error e2) ∧
    ((useGeminiApi.updateCsvData remoteErr "1" .null).final.error ≠ none ∧
      ∃ e2, (useGeminiApi.updateCsvData remoteErr "1" .null).outcome = .error e2) ∧
    ((useGeminiApi.getAllCsvData remoteErr).final.error ≠ none ∧
      ∃ e2, (useGeminiApi.getAllCsvData remoteErr).outcome = .error e2) := by
  have h := orchestrator_failure_stores_error_and_reraises remoteErr defaultBaseURL fileA
    none "1" "1" "t" [fileA] JsData.null
  exact ⟨h.1 (.error none unreachableMsg) rfl,
    h.2.1 (.error none unreachableMsg) rfl,
    h.2.2.1 (.error (some "X") "boom") rfl,
    h.2.2.2.1 (.error (some "X") "boom") rfl,
    h.2.2.2.2.1 (.error (some "X") "boom") rfl,
    h.2.2.2.2.2.1 (.error (some "X") "boom") rfl,
    h.2.2.2.2.2.2.1 (.error (some "X") "boom") rfl,
    h.2.2.2.2.2.2.2.1 (.error (some "X") "boom") rfl,
    h.2.2.2.2.2.2.2.2 (.error (some "X") "boom") rfl⟩

/-- Claim C5: for every Orchestrator operation and every input, loading is true
in the state visible strictly between invocation and settlement, and false once
the call settles, whether it settles by success or by failure. -/
theorem orchestrator_loading_lifecycle
    (remote : Remote) (baseURL : String) (file : JsFile)
    (options : Option (List (String × FormVal)))
    (analysisId id tableName : String) (files : List JsFile) (data : JsData) :
    ((useGeminiApi.analyzeImage remote baseURL file options).pending.isLoading = true ∧
      (useGeminiApi.analyzeImage remote baseURL file options).final.isLoading = false) ∧
    ((useGeminiApi.extractDataFromImage remote baseURL file).pending.isLoading = true ∧
      (useGeminiApi.extractDataFromImage remote baseURL file).final.isLoading = false) ∧
    ((useGeminiApi.getAnalysisResults remote analysisId).pending.isLoading = true ∧
      (useGeminiApi.getAnalysisResults remote analysisId).final.isLoading = false) ∧
    ((useGeminiApi.processFiles remote files).pending.isLoading = true ∧
      (useGeminiApi.processFiles remote files).final.isLoading = false) ∧
    ((useGeminiApi.createDatabase remote).pending.isLoading = true ∧
      (useGeminiApi.createDatabase remote).final.isLoading = false) ∧
    ((useGeminiApi.insertDataIntoPostgres remote data tableName).pending.isLoading = true ∧
      (useGeminiApi.insertDataIntoPostgres remote data tableName).final.isLoading = false) ∧
    ((useGeminiApi.getCsvData remote id).pending.isLoading = true ∧
      (useGeminiApi.getCsvData remote id).final.isLoading = false) ∧
    ((useGeminiApi.updateCsvData remote id data).pending.isLoading = true ∧
      (useGeminiApi.updateCsvData remote id data).final.isLoading = false) ∧
    ((useGeminiApi.getAllCsvData remote).pending.isLoading = true ∧
      (useGeminiApi.getAllCsvData remote).final.isLoading = false) := by
  refine ⟨?_, ?_, ?_, ?_, ?_, ?_, ?_, ?_, ?_⟩
  · cases hx : (geminiApi.analyzeImage remote baseURL file options).1 <;>
      simp [useGeminiApi.analyzeImage, hx, loadingState]
  · cases hx : (geminiApi.extractDataFromImage remote baseURL file).1 <;>
      simp [useGeminiApi.extractDataFromImage, hx, loadingState]
  · cases hx : (geminiApi.getAnalysisResults remote analysisId).1 <;>
      simp [useGeminiApi.getAnalysisResults, hx, loadingState]
  · cases hx : (geminiApi.processFiles remote files).1 <;>
      simp [useGeminiApi.processFiles, hx, loadingState]
  · cases hx : (geminiApi.createDatabase remote).1 <;>
      simp [useGeminiApi.createDatabase, hx, loadingState]
  · cases hx : (geminiApi.insertDataIntoPostgres remote data tableName).1 <;>
      simp [useGeminiApi.insertDataIntoPostgres, hx, loadingState]
  · cases hx : (geminiApi.getCsvData remote id).1 <;>
      simp [useGeminiApi.getCsvData, hx, loadingState]
  · cases hx : (geminiApi.updateCsvData remote id data).1 <;>
      simp [useGeminiApi.updateCsvData, hx, loadingState]
  · cases hx : (geminiApi.getAllCsvData remote).1 <;>
      simp [useGeminiApi.getAllCsvData, hx, loadingState]

/-- Claim C10: for every Orchestrator operation other than analyze-image, on
failure the value re-raised to the caller is the original underlying failure
value unchanged (even when it is not an `Error`), while the stored error is the
normalization `wrapUnknown e` — the original error when `e` is an `Error`, a
wrapped `Error` with the fixed message `"Unknown error occurred"` when it is
not; on a non-`Error` failure the stored error and the re-raised value
therefore differ. -/
theorem non_analyze_failure_reraises_original
    (remote : Remote) (baseURL : String) (file : JsFile)
    (analysisId id tableName : String) (files : List JsFile) (data : JsData) :
    (∀ e, (geminiApi.extractDataFromImage remote baseURL file).1 = .error e →
      (useGeminiApi.extractDataFromImage remote baseURL file).outcome = .error e ∧
      (useGeminiApi.extractDataFromImage remote baseURL file).final.error = some (wrapUnknown e)) ∧
    (∀ e, (geminiApi.getAnalysisResults remote analysisId).1 = .error e →
      (useGeminiApi.getAnalysisResults remote analysisId).outcome = .error e ∧
      (useGeminiApi.getAnalysisResults remote analysisId).final.error = some (wrapUnknown e)) ∧
    (∀ e, (geminiApi.processFiles remote files).1 = .error e →
      (useGeminiApi.processFiles remote files).outcome = .error e ∧
      (useGeminiApi.processFiles remote files).final.error = some (wrapUnknown e)) ∧
    (∀ e, (geminiApi.createDatabase remote).1 = .error e →
      (useGeminiApi.createDatabase remote).outcome = .error e ∧
      (useGeminiApi.createDatabase remote).final.error = some (wrapUnknown e)) ∧
    (∀ e, (geminiApi.insertDataIntoPostgres remote data tableName).1 = .error e →
      (useGeminiApi.insertDataIntoPostgres remote data tableName).outcome = .error e ∧
      (useGeminiApi.insertDataIntoPostgres remote data tableName).final.error = some (wrapUnknown e)) ∧
    (∀ e, (geminiApi.getCsvData remote id).1 = .error e →
      (useGeminiApi.getCsvData remote id).outcome = .error e ∧
      (useGeminiApi.getCsvData remote id).final.error = some (wrapUnknown e)) ∧
    (∀ e, (geminiApi.updateCsvData remote id data).1 = .error e →
      (useGeminiApi.updateCsvData remote id data).outcome = .error e ∧
      (useGeminiApi.updateCsvData remote id data).final.error = some (wrapUnknown e)) ∧
    (∀ e, (geminiApi.getAllCsvData remote).1 = .error e →
      (useGeminiApi.getAllCsvData remote).outcome = .error e ∧
      (useGeminiApi.getAllCsvData remote).final.error = some (wrapUnknown e)) ∧
    (∀ t : String,
      wrapUnknown (.nonError t) = .error none "Unknown error occurred" ∧
      wrapUnknown (.nonError t) ≠ .nonError t) := by
  refine ⟨?_, ?_, ?_, ?_, ?_, ?_, ?_, ?_, ?_⟩
  case _ : ∀ t : String, _ =>
    intro t
    exact ⟨rfl, by simp [wrapUnknown]⟩
  all_goals
    intro e h
    simp only [useGeminiApi.extractDataFromImage, useGeminiApi.getAnalysisResults,
      useGeminiApi.processFiles, useGeminiApi.createDatabase,
      useGeminiApi.insertDataIntoPostgres, useGeminiApi.getCsvData,
      useGeminiApi.updateCsvData, useGeminiApi.getAllCsvData, h]
    exact ⟨trivial, trivial⟩

/-- Witness for C10: against a remote that rejects everything with a
non-`Error` value, the seven direct bindings re-raise that raw value while the
stored error is the wrapped fixed-text `Error`; the upload-based binding fails
at the probe with the unreachable `Error`, which is stored as itself. -/
theorem non_analyze_failure_witness :
    ((useGeminiApi.extractDataFromImage remoteRaw defaultBaseURL fileA).outcome =
        .error (.error none unreachableMsg) ∧
      (useGeminiApi.extractDataFromImage remoteRaw defaultBaseURL fileA).final.error =
        some (wrapUnknown (.error none unreachableMsg))) ∧
    ((useGeminiApi.getAnalysisResults remoteRaw "1").outcome = .error (.nonError "raw") ∧
      (useGeminiApi.getAnalysisResults remoteRaw "1").final.error =
        some (wrapUnknown (.nonError "raw"))) ∧
    ((useGeminiApi.processFiles remoteRaw [fileA]).outcome = .error (.nonError "raw") ∧
      (useGeminiApi.processFiles remoteRaw [fileA]).final.error =
        some (wrapUnknown (.nonError "raw"))) ∧
    ((useGeminiApi.createDatabase remoteRaw).outcome = .error (.nonError "raw") ∧
      (useGeminiApi.createDatabase remoteRaw).final.error =
        some (wrapUnknown (.nonError "raw"))) ∧
    ((useGeminiApi.insertDataIntoPostgres remoteRaw .null "t").outcome =
        .error (.nonError "raw") ∧
      (useGeminiApi.insertDataIntoPostgres remoteRaw .null "t").final.error =
        some (wrapUnknown (.nonError "raw"))) ∧
    ((useGeminiApi.getCsvData remoteRaw "1").outcome = .error (.nonError "raw") ∧
      (useGeminiApi.getCsvData remoteRaw "1").final.error =
        some (wrapUnknown (.nonError "raw"))) ∧
    ((useGeminiApi.updateCsvData remoteRaw "1" .null).outcome = .error (.nonError "raw") ∧
      (useGeminiApi.updateCsvData remoteRaw "1" .null).final.error =
        some (wrapUnknown (.nonError "raw"))) ∧
    ((useGeminiApi.getAllCsvData remoteRaw).outcome = .error (.nonError "raw") ∧
      (useGeminiApi.getAllCsvData remoteRaw).final.error =
        some (wrapUnknown (.nonError "raw"))) ∧
    (wrapUnknown (.nonError "raw") = .error none "Unknown error occurred" ∧
      wrapUnknown (.nonError "raw") ≠ .nonError "raw") := by
  have h := non_analyze_failure_reraises_original remoteRaw defaultBaseURL fileA
    "1" "1" "t" [fileA] JsData.null
  exact ⟨h.1 _ rfl, h.2.1 _ rfl, h.2.2.1 _ rfl, h.2.2.2.1 _ rfl, h.2.2.2.2.1 _ rfl,
    h.2.2.2.2.2.1 _ rfl, h.2.2.2.2.2.2.1 _ rfl, h.2.2.2.2.2.2.2.1 _ rfl,
    h.2.2.2.2.2.2.2.2 "raw"⟩

/-- Claim C1, evaluated at the failing input: the underlying failure is an
`Error` whose message `"timeout of 120000ms exceeded"` contains `"timeout"`,
and the rewrite computed by the operation indeed maps it to the fixed took-too-
long text — but the error surfaced to the caller and stored keeps the original
message, because part_000 line 47 uses `err` itself whenever `err` is an
`Error`, discarding the rewritten `errorMessage`. The surfaced message is not
the fixed text the claim requires. -/
theorem analyzeImage_rewrite_discarded_at_timeout :
    strContains "timeout of 120000ms exceeded" "timeout" = true ∧
    rewriteMessage defaultBaseURL "timeout of 120000ms exceeded" = tookTooLongMsg ∧
    (useGeminiApi.analyzeImage remoteTimesOut defaultBaseURL fileA none).outcome =
      .error (.error (some "ECONNABORTED") "timeout of 120000ms exceeded") ∧
    (useGeminiApi.analyzeImage remoteTimesOut defaultBaseURL fileA none).final.error =
      some (.error (some "ECONNABORTED") "timeout of 120000ms exceeded") ∧
    "timeout of 120000ms exceeded" ≠ tookTooLongMsg := by
  exact ⟨by decide, by decide, rfl, rfl, by decide⟩
